import Mathlib

/-!
Shallow embedding of the clippy lint
`trailing_zero_sized_array_without_repr`
(src/clippy_lints/src/trailing_zero_sized_array_without_repr.rs).

The lint inspects each item; for a struct whose last field is an array
whose length constant-evaluates to 0 and which carries no `repr`
attribute, it emits one diagnostic with a suggested edit.

External collaborators (rustc spans, the constant evaluator, the repr
attribute classifier `rustc_attr::find_repr_attrs`, and the snippet
accessor `clippy_utils::source::snippet`) are embedded as data carried
on the input or as functions in a context record, following the
interfaces the lint uses.
-/

namespace Clippy

/-- A source span: a half-open range over source text, identified by its
low and high byte positions (`rustc_span::Span`). -/
structure Span where
  lo : Nat
  hi : Nat
  deriving DecidableEq, Repr

/-- `Span::to`: the smallest span from the start of `a` to the end of `b`. -/
def Span.to (a b : Span) : Span := ⟨a.lo, b.hi⟩

/-- `Span::shrink_to_lo`: the empty span at the start of `s`. -/
def Span.shrink_to_lo (s : Span) : Span := ⟨s.lo, s.lo⟩

/-- The variants of `rustc_attr::ReprAttr`: the recognized spellings of a
representation directive. -/
inductive ReprAttr where
  | reprInt
  | reprC
  | reprPacked (align : Nat)
  | reprSimd
  | reprTransparent
  | reprAlign (align : Nat)
  | reprNoNiche
  deriving DecidableEq, Repr

/-- An attribute attached to an item.  Modelled from the spec: the
classifier `rustc_attr::find_repr_attrs` is an external collaborator, so
each attribute carries the classifier's answer for it (`reprAttrs`, empty
when the attribute is not a representation directive) together with its
source span. -/
structure Attribute where
  span : Span
  reprAttrs : List ReprAttr
  deriving DecidableEq, Repr

/-- Modelled from the spec: `rustc_attr::find_repr_attrs` (external to
src/) classifies one attribute, returning the list of representation
directives it denotes (empty when it is not a repr attribute). -/
def find_repr_attrs (attr : Attribute) : List ReprAttr := attr.reprAttrs

/-- An array-length expression.  Modelled from the spec: the constant
evaluator (`Const::from_anon_const` followed by `try_eval_usize`, external
to src/) is the only query the lint makes of it, so the expression carries
that evaluator's answer: `some n` when the length constant-evaluates to
`n`, `none` when evaluation fails (e.g. unresolved generic parameters). -/
structure ArrayLen where
  evalUsize : Option Nat
  deriving DecidableEq, Repr

/-- The type of a field, as far as the lint inspects it: either an array
type with a length expression (`rustc_hir::TyKind::Array`) or anything
else. -/
inductive TyKind where
  | array (length : ArrayLen)
  | other
  deriving DecidableEq, Repr

/-- One field of a struct declaration. -/
structure Field where
  ty : TyKind
  deriving DecidableEq, Repr

/-- The kind of an item: a struct with its ordered field list
(`ItemKind::Struct`), or any other item kind. -/
inductive ItemKind where
  | struct (fields : List Field)
  | other
  deriving DecidableEq, Repr

/-- An identifier token with its source span. -/
structure Ident where
  span : Span
  deriving DecidableEq, Repr

/-- An item (declaration).  `attrs` is the attribute list the lint obtains
from `cx.tcx.get_attrs(item.def_id)`; `span` covers the declaration
itself (outer attributes are not part of it); `ident` is the name
token. -/
structure Item where
  kind : ItemKind
  span : Span
  ident : Ident
  attrs : List Attribute
  deriving DecidableEq, Repr

/-- The lint context, reduced to the two source-text queries the lint
makes.  Modelled from the spec: `clippy_utils::source::snippet` and
`indent_of` are external to src/; `snippetOf` returns the source text of
a span when it can be retrieved, `indentOf` the indentation of the line a
span starts on. -/
structure Ctx where
  snippetOf : Span → Option String
  indentOf : Span → Option Nat

/-- `clippy_utils::source::snippet cx span default`: the source text of
`span`, or the `default` placeholder when it cannot be retrieved. -/
def snippet (cx : Ctx) (s : Span) (dflt : String) : String :=
  (cx.snippetOf s).getD dflt

/-- `clippy_utils::source::indent_of`. -/
def indent_of (cx : Ctx) (s : Span) : Option Nat := cx.indentOf s

/-- `rustc_errors::Applicability` of a suggestion. -/
inductive Applicability where
  | machineApplicable
  | maybeIncorrect
  | hasPlaceholders
  | unspecified
  deriving DecidableEq, Repr

/-- One emitted diagnostic: lint message, flagged span, help message, and
the suggestion (the text `sugg` proposed as a replacement for the source
range `suggSpan`), with its applicability. -/
structure LintFinding where
  span : Span
  msg : String
  helpMsg : String
  suggSpan : Span
  sugg : String
  applicability : Applicability
  deriving DecidableEq, Repr

/-- `clippy_utils::diagnostics::span_lint_and_sugg cx lint sp msg help
sugg applicability`: emits the lint at `sp` and attaches the suggestion
to that same span `sp` (it forwards `sp` to `diag.span_suggestion`). -/
def span_lint_and_sugg (sp : Span) (msg helpMsg sugg : String)
    (app : Applicability) : LintFinding :=
  { span := sp, msg := msg, helpMsg := helpMsg, suggSpan := sp,
    sugg := sugg, applicability := app }

/-- `is_struct_with_trailing_zero_sized_array`: the item is a struct, its
field list is non-empty, the last field's type is an array, and the
array's length constant-evaluates to exactly 0. -/
def is_struct_with_trailing_zero_sized_array (item : Item) : Bool :=
  match item.kind with
  | ItemKind.struct fields =>
    match fields.getLast? with
    | some last_field =>
      match last_field.ty with
      | TyKind.array length => length.evalUsize == some 0
      | TyKind.other => false
    | none => false
  | ItemKind.other => false

/-- `has_repr_attr`: some attribute in `attrs` is classified as a
representation directive by `find_repr_attrs`. -/
def has_repr_attr (attrs : List Attribute) : Bool :=
  attrs.any (fun attr => !(find_repr_attrs attr).isEmpty)

/-- `attrs.iter().min_by_key(|attr| attr.span.lo())`: the first attribute
with minimal span start (Rust `min_by_key` keeps the first of equal
minima). -/
def min_by_key_lo (attrs : List Attribute) : Option Attribute :=
  match attrs with
  | [] => none
  | a :: rest =>
    some (rest.foldl (fun acc b => if b.span.lo < acc.span.lo then b else acc) a)

/-- `check_item`, the body of the `LateLintPass` impl: on a matching
struct without a repr attribute it emits one finding via
`span_lint_and_sugg`, otherwise nothing.  The locals `_lint_span`,
`_suggestion_span` and `_indent` are computed but unused in the active
code path, exactly as in the source (their uses are commented out
there). -/
def check_item (cx : Ctx) (item : Item) : Option LintFinding :=
  if is_struct_with_trailing_zero_sized_array item then
    let attrs := item.attrs
    let first_attr := min_by_key_lo attrs
    let _lint_span :=
      match first_attr with
      | some fa => fa.span.to item.span
      | none => item.span
    if !(has_repr_attr attrs) then
      let _suggestion_span := item.span.shrink_to_lo
      let _indent := String.mk (List.replicate ((indent_of cx item.span).getD 0) ' ')
      some (span_lint_and_sugg item.span
        "trailing zero-sized array in a struct which is not marked with a `repr` attribute"
        "consider adding `#[repr(C)]` or another `repr` attribute"
        ("#[repr(C)]\n" ++ snippet cx (item.span.shrink_to_lo.to item.ident.span) "..")
        Applicability.maybeIncorrect)
    else
      none
  else
    none

/-- The rule's single entry point, `examine` in the spec: the traversal
collaborator invokes `check_item` once per item. -/
def examine (cx : Ctx) (item : Item) : Option LintFinding :=
  check_item cx item

/-! Helper lemmas characterizing `check_item`. -/

theorem matcher_true_of (item : Item) (fields : List Field) (f : Field)
    (len : ArrayLen) (hk : item.kind = ItemKind.struct fields)
    (hl : fields.getLast? = some f) (ht : f.ty = TyKind.array len)
    (he : len.evalUsize = some 0) :
    is_struct_with_trailing_zero_sized_array item = true := by
  simp [is_struct_with_trailing_zero_sized_array, hk, hl, ht, he]

theorem has_repr_attr_false_of (attrs : List Attribute)
    (h : ∀ a ∈ attrs, find_repr_attrs a = []) :
    has_repr_attr attrs = false := by
  simp only [has_repr_attr, List.any_eq_false, Bool.not_eq_true]
  intro a ha
  rw [Bool.not_eq_false', List.isEmpty_eq_true]
  exact h a ha

theorem check_item_pos (cx : Ctx) (item : Item)
    (hm : is_struct_with_trailing_zero_sized_array item = true)
    (hr : has_repr_attr item.attrs = false) :
    check_item cx item = some (span_lint_and_sugg item.span
      "trailing zero-sized array in a struct which is not marked with a `repr` attribute"
      "consider adding `#[repr(C)]` or another `repr` attribute"
      ("#[repr(C)]\n" ++ snippet cx (item.span.shrink_to_lo.to item.ident.span) "..")
      Applicability.maybeIncorrect) := by
  simp [check_item, hm, hr]

theorem check_item_none_of_not_match (cx : Ctx) (item : Item)
    (hm : is_struct_with_trailing_zero_sized_array item = false) :
    check_item cx item = none := by
  simp [check_item, hm]

theorem check_item_none_of_repr (cx : Ctx) (item : Item)
    (hr : has_repr_attr item.attrs = true) :
    check_item cx item = none := by
  simp [check_item, hr]

theorem check_item_some_inv (cx : Ctx) (item : Item) (fd : LintFinding)
    (h : check_item cx item = some fd) :
    is_struct_with_trailing_zero_sized_array item = true ∧
    has_repr_attr item.attrs = false ∧
    fd = span_lint_and_sugg item.span
      "trailing zero-sized array in a struct which is not marked with a `repr` attribute"
      "consider adding `#[repr(C)]` or another `repr` attribute"
      ("#[repr(C)]\n" ++ snippet cx (item.span.shrink_to_lo.to item.ident.span) "..")
      Applicability.maybeIncorrect := by
  cases hm : is_struct_with_trailing_zero_sized_array item with
  | false => simp [check_item, hm] at h
  | true =>
    cases hr : has_repr_attr item.attrs with
    | true => simp [check_item, hm, hr] at h
    | false =>
      simp [check_item, hm, hr] at h
      exact ⟨rfl, rfl, h.symm⟩

/-! Concrete inputs used by witnesses and counterexamples.  `exItem`
models `struct S { x: u8, last: [u8; 0] }` with no attributes: the
declaration spans bytes 0..26 and the identifier `S` spans bytes 7..8. -/

def exField : Field := ⟨TyKind.array ⟨some 0⟩⟩

def exItem : Item :=
  { kind := ItemKind.struct [⟨TyKind.other⟩, exField],
    span := ⟨0, 26⟩, ident := ⟨⟨7, 8⟩⟩, attrs := [] }

def exCtx : Ctx :=
  { snippetOf := fun s => if s = ⟨0, 8⟩ then some "struct S" else none,
    indentOf := fun _ => some 0 }

/-- The finding `examine` produces for `exItem` under `exCtx`. -/
def exFinding : LintFinding :=
  { span := ⟨0, 26⟩,
    msg := "trailing zero-sized array in a struct which is not marked with a `repr` attribute",
    helpMsg := "consider adding `#[repr(C)]` or another `repr` attribute",
    suggSpan := ⟨0, 26⟩,
    sugg := "#[repr(C)]\nstruct S",
    applicability := Applicability.maybeIncorrect }

/-- C1: for every struct declaration whose last field is an array whose
length constant-evaluates to exactly 0 and which carries no attribute
classified as a repr directive, `examine` emits exactly one finding
(`some`), and the finding's flagged span equals the declaration's full
span (`item.span`). -/
theorem examine_matching_struct_one_finding_full_span
    (cx : Ctx) (item : Item) (fields : List Field) (f : Field) (len : ArrayLen)
    (hk : item.kind = ItemKind.struct fields)
    (hl : fields.getLast? = some f)
    (ht : f.ty = TyKind.array len)
    (he : len.evalUsize = some 0)
    (ha : ∀ a ∈ item.attrs, find_repr_attrs a = []) :
    ∃ fd, examine cx item = some fd ∧ fd.span = item.span := by
  have hm := matcher_true_of item fields f len hk hl ht he
  have hr := has_repr_attr_false_of item.attrs ha
  exact ⟨_, check_item_pos cx item hm hr, rfl⟩

/-- C1 witness: `examine` on the concrete matching struct
`struct S { x: u8, last: [u8; 0] }` with no attributes. -/
theorem examine_matching_struct_one_finding_full_span_witness :
    ∃ fd, examine exCtx exItem = some fd ∧ fd.span = exItem.span :=
  examine_matching_struct_one_finding_full_span exCtx exItem
    [⟨TyKind.other⟩, exField] exField ⟨some 0⟩ rfl rfl rfl rfl
    (by simp [exItem])

/-- C2 evaluated at a concrete matching declaration: the emitted
finding's suggestion is attached to the full declaration span, not to
the span shrunk to its start point — `check_item` hands `item.span` to
`span_lint_and_sugg` while its local `_suggestion_span =
item.span.shrink_to_lo` is never used, so the suggested edit replaces
the entire declaration text rather than inserting before it. -/
theorem examine_sugg_attached_to_full_span :
    (examine exCtx exItem).map LintFinding.suggSpan = some exItem.span ∧
    exItem.span ≠ exItem.span.shrink_to_lo := by
  exact ⟨by decide, by decide⟩

/-- A context that can retrieve both the text of the span ending at the
identifier's high end (bytes 0..8, `"struct S"`) and the text of the
span ending at the identifier's low end (bytes 0..7, `"struct "`). -/
def exCtxC3 : Ctx :=
  { snippetOf := fun s =>
      if s = ⟨0, 8⟩ then some "struct S"
      else if s = ⟨0, 7⟩ then some "struct " else none,
    indentOf := fun _ => some 0 }

/-- C3 fails as stated: at the concrete declaration `exItem`, the
suggested text covers the source from the declaration's start through
the END of the identifier token (`"struct S"`), not the text stopping
before the identifier (`"struct "`): the snippet span is
`item.span.shrink_to_lo().to(item.ident.span)`, whose high end is the
identifier span's high end. -/
theorem examine_sugg_text_includes_ident :
    ∃ fd, examine exCtxC3 exItem = some fd ∧
      fd.sugg ≠ "#[repr(C)]\n" ++ snippet exCtxC3 ⟨exItem.span.lo, exItem.ident.span.lo⟩ ".." ∧
      fd.sugg = "#[repr(C)]\n" ++ snippet exCtxC3 (exItem.span.shrink_to_lo.to exItem.ident.span) ".." := by
  exact ⟨exFinding, by decide, by decide, by decide⟩

/-- C3 amended: for every declaration that triggers a finding, the
suggested replacement text equals the canonical directive text followed
by a newline, followed by the source text of the span from the
declaration's start through the end of the identifier token (so the
identifier itself is part of the preserved prefix, along with any
visibility qualifiers before it). -/
theorem examine_sugg_text_directive_then_prefix
    (cx : Ctx) (item : Item) (fd : LintFinding)
    (h : examine cx item = some fd) :
    fd.sugg = "#[repr(C)]\n" ++ snippet cx (item.span.shrink_to_lo.to item.ident.span) ".." := by
  obtain ⟨-, -, hfd⟩ := check_item_some_inv cx item fd h
  rw [hfd, span_lint_and_sugg]

/-- C3 amended witness: the suggestion text for the concrete finding on
`exItem`. -/
theorem examine_sugg_text_directive_then_prefix_witness :
    exFinding.sugg = "#[repr(C)]\n" ++ snippet exCtx (exItem.span.shrink_to_lo.to exItem.ident.span) ".." :=
  examine_sugg_text_directive_then_prefix exCtx exItem exFinding (by decide)

/-- Modelled from the spec: applying the suggested edit inserts the
line `#[repr(C)]` immediately before the declaration; re-parsing the
result leaves the declaration unchanged except that its attribute list
additionally contains an attribute which the classifier recognizes as
the C representation directive. -/
def apply_suggested_fix (item : Item) : Item :=
  { item with attrs := ⟨item.span.shrink_to_lo, [ReprAttr.reprC]⟩ :: item.attrs }

/-- C4: applying the suggested edit (inserting the canonical repr
directive line before the declaration) and re-running `examine` on the
resulting declaration yields no finding. -/
theorem examine_after_fix_none (cx : Ctx) (item : Item) :
    examine cx (apply_suggested_fix item) = none := by
  apply check_item_none_of_repr
  simp [apply_suggested_fix, has_repr_attr, find_repr_attrs]

/-- C5: for every declaration whose last field is an array whose length
either constant-evaluates to a non-zero value or fails to
constant-evaluate, `examine` returns nothing: evaluation failure is
folded into the boolean no-match outcome. -/
theorem examine_none_of_nonzero_or_uneval
    (cx : Ctx) (item : Item) (fields : List Field) (f : Field) (len : ArrayLen)
    (hk : item.kind = ItemKind.struct fields)
    (hl : fields.getLast? = some f)
    (ht : f.ty = TyKind.array len)
    (he : len.evalUsize = none ∨ ∃ n, n ≠ 0 ∧ len.evalUsize = some n) :
    examine cx item = none := by
  apply check_item_none_of_not_match
  rcases he with he | ⟨n, hn, he⟩
  · simp [is_struct_with_trailing_zero_sized_array, hk, hl, ht, he]
  · simp [is_struct_with_trailing_zero_sized_array, hk, hl, ht, he, hn]

/-- A struct whose last (and only) field is `[u8; 3]`. -/
def exItemNonzero : Item :=
  { kind := ItemKind.struct [⟨TyKind.array ⟨some 3⟩⟩],
    span := ⟨0, 30⟩, ident := ⟨⟨7, 8⟩⟩, attrs := [] }

/-- C5 witness: `examine` at the concrete struct whose last field is an
array of length 3. -/
theorem examine_none_of_nonzero_or_uneval_witness :
    examine exCtx exItemNonzero = none :=
  examine_none_of_nonzero_or_uneval exCtx exItemNonzero
    [⟨TyKind.array ⟨some 3⟩⟩] ⟨TyKind.array ⟨some 3⟩⟩ ⟨some 3⟩
    rfl rfl rfl (Or.inr ⟨3, by decide, rfl⟩)

/-- C6: `has_repr_attr` returns true iff at least one attribute in the
sequence is classified as a representation directive by
`find_repr_attrs`, regardless of spelling or position; the empty
sequence yields false; and a declaration carrying such an attribute
produces no finding. -/
theorem has_repr_attr_iff_any_directive
    (cx : Ctx) (item : Item) :
    (has_repr_attr item.attrs = true ↔ ∃ a ∈ item.attrs, find_repr_attrs a ≠ []) ∧
    has_repr_attr [] = false ∧
    ((∃ a ∈ item.attrs, find_repr_attrs a ≠ []) → examine cx item = none) := by
  have hiff : ∀ attrs : List Attribute,
      has_repr_attr attrs = true ↔ ∃ a ∈ attrs, find_repr_attrs a ≠ [] := by
    intro attrs
    simp only [has_repr_attr, List.any_eq_true, Bool.not_eq_false',
      Bool.not_eq_true', List.isEmpty_eq_true, find_repr_attrs]
    constructor
    · rintro ⟨a, ha, hne⟩
      exact ⟨a, ha, by simpa using hne⟩
    · rintro ⟨a, ha, hne⟩
      exact ⟨a, ha, by simpa using hne⟩
  refine ⟨hiff item.attrs, rfl, fun hex => ?_⟩
  exact check_item_none_of_repr cx item ((hiff item.attrs).mpr hex)

/-- An attribute classified as the C representation directive, spanning
bytes 0..10. -/
def exAttrRepr : Attribute := ⟨⟨0, 10⟩, [ReprAttr.reprC]⟩

/-- A matching trailing-zero-sized-array struct carrying `exAttrRepr`. -/
def exItemRepr : Item :=
  { kind := ItemKind.struct [exField],
    span := ⟨11, 40⟩, ident := ⟨⟨18, 19⟩⟩, attrs := [exAttrRepr] }

/-- C6 witness: the matching struct that carries a repr attribute yields
no finding. -/
theorem has_repr_attr_iff_any_directive_witness :
    examine exCtx exItemRepr = none :=
  (has_repr_attr_iff_any_directive exCtx exItemRepr).2.2
    ⟨exAttrRepr, by simp [exItemRepr], by decide⟩

/-- C7: for every struct declaration with zero fields, `examine` returns
nothing, and the shape matcher itself returns false on the empty field
list. -/
theorem examine_none_of_no_fields (cx : Ctx) (item : Item)
    (hk : item.kind = ItemKind.struct []) :
    is_struct_with_trailing_zero_sized_array item = false ∧
    examine cx item = none := by
  have hm : is_struct_with_trailing_zero_sized_array item = false := by
    simp [is_struct_with_trailing_zero_sized_array, hk]
  exact ⟨hm, check_item_none_of_not_match cx item hm⟩

/-- A struct declaration with an empty field list. -/
def exItemEmpty : Item :=
  { kind := ItemKind.struct [], span := ⟨0, 12⟩, ident := ⟨⟨7, 8⟩⟩, attrs := [] }

/-- C7 witness: the concrete fieldless struct. -/
theorem examine_none_of_no_fields_witness :
    is_struct_with_trailing_zero_sized_array exItemEmpty = false ∧
    examine exCtx exItemEmpty = none :=
  examine_none_of_no_fields exCtx exItemEmpty rfl

/-- C8: for every declaration whose last field's type is not an array
type, `examine` returns nothing — only the trailing field is inspected,
so this holds even when a zero-length array appears in a non-last field
position. -/
theorem examine_none_of_last_not_array (cx : Ctx) (item : Item)
    (fields : List Field) (f : Field)
    (hk : item.kind = ItemKind.struct fields)
    (hl : fields.getLast? = some f)
    (ht : ∀ len, f.ty ≠ TyKind.array len) :
    examine cx item = none := by
  apply check_item_none_of_not_match
  have hty : f.ty = TyKind.other := by
    cases hty : f.ty with
    | array len => exact absurd hty (ht len)
    | other => rfl
  simp [is_struct_with_trailing_zero_sized_array, hk, hl, hty]

/-- A struct with a zero-length array in the first (non-last) field
position and a non-array last field. -/
def exItemNonLast : Item :=
  { kind := ItemKind.struct [exField, ⟨TyKind.other⟩],
    span := ⟨0, 30⟩, ident := ⟨⟨7, 8⟩⟩, attrs := [] }

/-- C8 witness: the struct whose zero-length array is not in trailing
position yields no finding. -/
theorem examine_none_of_last_not_array_witness :
    examine exCtx exItemNonLast = none :=
  examine_none_of_last_not_array exCtx exItemNonLast [exField, ⟨TyKind.other⟩]
    ⟨TyKind.other⟩ rfl rfl (fun _ h => TyKind.noConfusion h)

/-- C9: for every declaration that triggers a finding, the flagged span
is the declaration's own span, and it never equals the attribute-covering
span `first_attr.span.to(item.span)` computed from the earliest
attribute when that attribute starts before the declaration. -/
theorem examine_span_never_attr_covering
    (cx : Ctx) (item : Item) (fd : LintFinding)
    (h : examine cx item = some fd) :
    fd.span = item.span ∧
    ∀ fa, min_by_key_lo item.attrs = some fa →
      fa.span.lo ≠ item.span.lo → fd.span ≠ fa.span.to item.span := by
  obtain ⟨-, -, hfd⟩ := check_item_some_inv cx item fd h
  subst hfd
  refine ⟨rfl, fun fa _ hne heq => hne ?_⟩
  have hlo := congrArg Span.lo heq
  simpa [span_lint_and_sugg, Span.to] using hlo.symm

/-- A non-repr attribute (e.g. a derive) spanning bytes 0..10, before
the declaration. -/
def exAttrDerive : Attribute := ⟨⟨0, 10⟩, []⟩

/-- A matching struct at bytes 11..40 preceded by the non-repr attribute
`exAttrDerive`. -/
def exItemAttr : Item :=
  { kind := ItemKind.struct [exField],
    span := ⟨11, 40⟩, ident := ⟨⟨18, 19⟩⟩, attrs := [exAttrDerive] }

/-- The finding `examine` produces for `exItemAttr` under `exCtx` (its
snippet span 11..19 is not retrievable there, so the suggestion uses the
placeholder). -/
def exFindingAttr : LintFinding :=
  { span := ⟨11, 40⟩,
    msg := "trailing zero-sized array in a struct which is not marked with a `repr` attribute",
    helpMsg := "consider adding `#[repr(C)]` or another `repr` attribute",
    suggSpan := ⟨11, 40⟩,
    sugg := "#[repr(C)]\n..",
    applicability := Applicability.maybeIncorrect }

/-- C9 witness: on the concrete attributed struct, the reported span
differs from the attribute-covering span. -/
theorem examine_span_never_attr_covering_witness :
    exFindingAttr.span ≠ exAttrDerive.span.to exItemAttr.span :=
  (examine_span_never_attr_covering exCtx exItemAttr exFindingAttr (by decide)).2
    exAttrDerive (by decide) (by decide)

/-- C10: if the source text for the span from the declaration's start to
its identifier cannot be retrieved, a finding is still emitted and its
suggested replacement is the canonical directive line followed by the
placeholder `".."`. -/
theorem examine_sugg_placeholder_when_no_snippet
    (cx : Ctx) (item : Item)
    (hm : is_struct_with_trailing_zero_sized_array item = true)
    (hr : has_repr_attr item.attrs = false)
    (hs : cx.snippetOf (item.span.shrink_to_lo.to item.ident.span) = none) :
    ∃ fd, examine cx item = some fd ∧ fd.sugg = "#[repr(C)]\n.." := by
  refine ⟨_, check_item_pos cx item hm hr, ?_⟩
  rw [span_lint_and_sugg]
  simp only [snippet, hs, Option.getD_none]
  decide

/-- A context in which no snippet is retrievable. -/
def exCtxNone : Ctx :=
  { snippetOf := fun _ => none, indentOf := fun _ => none }

/-- C10 witness: the matching struct under the snippetless context. -/
theorem examine_sugg_placeholder_when_no_snippet_witness :
    ∃ fd, examine exCtxNone exItem = some fd ∧ fd.sugg = "#[repr(C)]\n.." :=
  examine_sugg_placeholder_when_no_snippet exCtxNone exItem
    (by decide) (by decide) rfl

end Clippy
